import Mathlib

/-!
Verification of the response-shape normalization and hierarchy extraction
core of the Streamlit TOC/script UI (`streamlit_app.py`).

The JSON-like documents handled by the code are modelled by the type `Val`
below (no floating-point values: all numeric payloads in scope are
integers). Python semantics used by the code — `dict.get` with and without
a default, truthiness, `str()`, the `or` operator, f-string interpolation —
are embedded as total Lean functions, and each Python function of the core
(`safe_list`, `safe_dict`, `safe_str`, `display_toc_hierarchical`'s pure
row/summary computations, `extract_subtopics_from_toc`,
`extract_subnodes_from_toc`) is translated into a Lean definition of the
same name.
-/

namespace TocUI

/-- JSON-like Python values (dicts as association lists, no floats). -/
inductive Val where
  | null : Val
  | bool : Bool → Val
  | int : Int → Val
  | str : String → Val
  | list : List Val → Val
  | dict : List (String × Val) → Val

-- Python `repr` on `Val` (used by `str()` on containers).
mutual
def pyRepr : Val → String
  | .null => "None"
  | .bool b => if b then "True" else "False"
  | .int n => toString n
  | .str s => "'" ++ s ++ "'"
  | .list xs => "[" ++ pyReprList xs ++ "]"
  | .dict kvs => "\x7b" ++ pyReprDict kvs ++ "\x7d"
def pyReprList : List Val → String
  | [] => ""
  | [v] => pyRepr v
  | v :: rest => pyRepr v ++ ", " ++ pyReprList rest
def pyReprDict : List (String × Val) → String
  | [] => ""
  | [(k, v)] => "'" ++ k ++ "': " ++ pyRepr v
  | (k, v) :: rest => "'" ++ k ++ "': " ++ pyRepr v ++ ", " ++ pyReprDict rest
end

/-- Python `str()` on `Val`. -/
def pyStr : Val → String
  | .null => "None"
  | .bool b => if b then "True" else "False"
  | .int n => toString n
  | .str s => s
  | .list xs => pyRepr (.list xs)
  | .dict kvs => pyRepr (.dict kvs)

/-- Python truthiness on `Val`. -/
def truthy : Val → Bool
  | .null => false
  | .bool b => b
  | .int n => n != 0
  | .str s => !s.isEmpty
  | .list xs => !xs.isEmpty
  | .dict kvs => !kvs.isEmpty

/-- Python `a or b` on values: `a` if truthy, else `b`. -/
def pyOr (a b : Val) : Val := if truthy a then a else b

/-- Python `isinstance(v, dict)`. -/
def Val.isDict : Val → Bool
  | .dict _ => true
  | _ => false

/-- Python `isinstance(v, int)` (true for `bool`, as in Python). -/
def Val.isIntLike : Val → Bool
  | .int _ => true
  | .bool _ => true
  | _ => false

/-- Lookup of a key in a Python dict (first binding wins). -/
def dLookup (d : List (String × Val)) (k : String) : Option Val :=
  match d with
  | [] => none
  | (k2, v) :: rest => if k2 = k then some v else dLookup rest k

/-- Python `d.get(k, dflt)` on a dict. -/
def dget (d : List (String × Val)) (k : String) (dflt : Val) : Val :=
  (dLookup d k).getD dflt

/-- Python `d.get(k)` on a dict (default `None`). -/
def dget1 (d : List (String × Val)) (k : String) : Val :=
  dget d k .null

/-- `safe_list` from the source: a list unchanged, anything else `[]`. -/
def safe_list : Val → List Val
  | .list xs => xs
  | _ => []

/-- `safe_dict` from the source: a dict unchanged, anything else `{}`. -/
def safe_dict : Val → List (String × Val)
  | .dict kvs => kvs
  | _ => []

/-- `safe_str` from the source: `""` for `None`, else `str(value)`,
truncated to `max_len` characters plus `"..."` when too long. -/
def safe_str (v : Val) (maxLen : Option Nat) : String :=
  let s := match v with
    | .null => ""
    | v => pyStr v
  match maxLen with
  | some m => if s.length > m then s.take m ++ "..." else s
  | none => s

/-- The `maintopic_number` / `subtopic_number` coercion from the source:
`if isinstance(n, int): n = str(n)`. -/
def coerceNum (v : Val) : Val :=
  if v.isIntLike then .str (pyStr v) else v

/-! ## Flatten-to-rows (`display_toc_hierarchical`, rows loop)

A row of the hierarchical table. `title` and `duration` hold raw Python
values in the source (e.g. the maintopic row's `Duration` is the raw
`maintopic.get("duration", "N/A")`), so they are `Val` here; the other
columns are always built from f-strings or `safe_str` and are `String`. -/

structure Row where
  level : String
  number : String
  title : Val
  description : String
  duration : Val

/-- The Maintopic row of one well-shaped maintopic entry
(`display_toc_hierarchical`, lines 128–145). -/
def maintopicHeadRow (maintopic : List (String × Val)) : Row :=
  let maintopic_num := coerceNum (dget maintopic "maintopic_number" (.str ""))
  let maintopic_title := dget maintopic "title" (.str "Untitled")
  let maintopic_duration := dget maintopic "duration" (.str "N/A")
  let maintopic_desc := safe_str (dget maintopic "description" (.str "")) (some 80)
  ⟨"📚 Maintopic",
   if truthy maintopic_num then "**" ++ pyStr maintopic_num ++ "**" else "",
   Val.str ("**" ++ pyStr maintopic_title ++ "**"),
   maintopic_desc,
   maintopic_duration⟩

/-- The Subnode row of one sub-node value
(`display_toc_hierarchical`, lines 175–192). -/
def subnodeRowOf (subnode : Val) : Row :=
  match subnode with
  | .dict d =>
      let title := pyOr (dget1 d "title") (pyOr (dget1 d "name") (Val.str (pyStr (Val.dict d))))
      let duration_minutes := dget d "duration_minutes" (.int 0)
      ⟨"    • Subnode", "", title, "",
       Val.str (if truthy duration_minutes then pyStr duration_minutes ++ " min" else "")⟩
  | _ => ⟨"    • Subnode", "", Val.str (safe_str subnode none), "", Val.str ""⟩

/-- The Subtopic row of one dict subtopic
(`display_toc_hierarchical`, lines 158–173). -/
def subtopicHeadRow (maintopic_num : Val) (d : List (String × Val)) : Row :=
  let subtopic_num := coerceNum (dget d "subtopic_number" (.str ""))
  let subtopic_title := dget d "title" (.str "Untitled")
  let subtopic_desc := safe_str (dget d "description" (.str "")) (some 80)
  let subtopic_duration := dget d "duration_minutes" (.int 0)
  ⟨"  📖 Subtopic",
   if truthy maintopic_num || truthy subtopic_num then
     pyStr maintopic_num ++ "." ++ pyStr subtopic_num else "",
   subtopic_title,
   subtopic_desc,
   Val.str (if truthy subtopic_duration then pyStr subtopic_duration ++ " min" else "-")⟩

/-- The rows of one subtopic value: an Error row for a non-dict subtopic,
else a Subtopic row followed by its Subnode rows
(`display_toc_hierarchical`, lines 147–192). -/
def subtopicBlock (maintopic_num : Val) (subtopic : Val) : List Row :=
  match subtopic with
  | .dict d =>
      subtopicHeadRow maintopic_num d ::
      (safe_list (dget1 d "subnodes")).map subnodeRowOf
  | _ => [⟨"  ⚠️ Error", "", Val.str (safe_str subtopic none), "", Val.str ""⟩]

/-- The rows of one maintopic entry: an Error row for a non-dict entry,
else a Maintopic row followed by its subtopic blocks
(`display_toc_hierarchical`, lines 117–192). -/
def entryBlock (entry : Val) : List Row :=
  match entry with
  | .dict e =>
      let maintopic := safe_dict (dget1 e "maintopic")
      let subtopics := safe_list (dget1 e "subtopics")
      let maintopic_num := coerceNum (dget maintopic "maintopic_number" (.str ""))
      maintopicHeadRow maintopic :: subtopics.flatMap (subtopicBlock maintopic_num)
  | _ => [⟨"⚠️ Error", "", Val.str (safe_str entry none), "", Val.str ""⟩]

/-- The sanitized maintopic entries of a course document:
`safe_list(safe_dict(toc_data).get("maintopics_with_subtopics"))`. -/
def tocMaintopics (toc_data : Val) : List Val :=
  safe_list (dget1 (safe_dict toc_data) "maintopics_with_subtopics")

/-- The full row sequence built by the rows loop of
`display_toc_hierarchical` (lines 116–192). -/
def rowsOf (toc_data : Val) : List Row :=
  (tocMaintopics toc_data).flatMap entryBlock

/-- Outcome of `display_toc_hierarchical`: either the early-return
"no data" warning carrying the (sanitized) document, or the table rows. -/
inductive DisplayResult where
  | noData (raw : Val)
  | table (rows : List Row)

/-- `display_toc_hierarchical`, modelled as a value: the early return at
lines 108–112 when the sanitized maintopic list is empty, else the rows. -/
def display_toc_hierarchical (toc_data : Val) : DisplayResult :=
  if (tocMaintopics toc_data).isEmpty then
    .noData (Val.dict (safe_dict toc_data))
  else
    .table (rowsOf toc_data)

/-! ## Summary statistics (`display_toc_hierarchical`, lines 216–263) -/

/-- `sane_maintopics`: the dict-typed maintopic entries (line 217). -/
def sane_maintopics (toc_data : Val) : List Val :=
  (tocMaintopics toc_data).filter Val.isDict

/-- `maintopic_count` (line 218). -/
def maintopic_count (toc_data : Val) : Nat :=
  (sane_maintopics toc_data).length

/-- `subtopic_count`: dict-typed subtopic entries across all sane
maintopics (lines 221–226). -/
def subtopic_count (toc_data : Val) : Nat :=
  (sane_maintopics toc_data).foldl (fun a m =>
    (safe_list (dget1 (safe_dict m) "subtopics")).foldl (fun b s =>
      if s.isDict then b + 1 else b) a) 0

/-- `subnode_count`: dict-typed sub-node entries across all sane
maintopics and dict subtopics (lines 229–236). -/
def subnode_count (toc_data : Val) : Nat :=
  (sane_maintopics toc_data).foldl (fun a m =>
    (safe_list (dget1 (safe_dict m) "subtopics")).foldl (fun b s =>
      match s with
      | .dict d =>
          (safe_list (dget1 d "subnodes")).foldl (fun c n =>
            if n.isDict then c + 1 else c) b
      | _ => b) a) 0

/-- `total_minutes`: sum of int-typed `duration_minutes` over dict
subtopics (lines 243–249); `sub.get("duration_minutes", 0) or 0`, added
only when `isinstance(duration, (int, float))`. -/
def total_minutes (toc_data : Val) : Int :=
  (sane_maintopics toc_data).foldl (fun a m =>
    (safe_list (dget1 (safe_dict m) "subtopics")).foldl (fun b s =>
      match s with
      | .dict d =>
          match pyOr (dget d "duration_minutes" (.int 0)) (.int 0) with
          | .int n => b + n
          | .bool t => b + (if t then 1 else 0)
          | _ => b
      | _ => b) a) 0

/-- `total_hours` (lines 239–250): the externally supplied course hours
when positive, else `total_minutes / 60` when positive, else `0`. -/
def total_hours (course_hours : Option ℚ) (toc_data : Val) : ℚ :=
  match course_hours with
  | some h => if h > 0 then h else
      (if total_minutes toc_data > 0 then (total_minutes toc_data : ℚ) / 60 else 0)
  | none =>
      if total_minutes toc_data > 0 then (total_minutes toc_data : ℚ) / 60 else 0

/-- The Total Duration metric (lines 260–263): `some h` renders as
`"{h:.1f}h"`, `none` renders as `"N/A"`. -/
def durationMetric (course_hours : Option ℚ) (toc_data : Val) : Option ℚ :=
  if total_hours course_hours toc_data > 0 then
    some (total_hours course_hours toc_data)
  else none

/-! ## `extract_subtopics_from_toc` (lines 265–322) -/

/-- A subtopic selector record. `full_number` and `display_name` are built
by f-strings in both branches and are `String`; the other payload fields
hold raw document values. -/
structure SubtopicRec where
  maintopic_number : Val
  maintopic_title : Val
  subtopic_number : Val
  subtopic_title : Val
  full_number : String
  display_name : String
  description : Val
  duration : Val
  subnodes : List Val

/-- The record emitted for one subtopic value: the minimal entry for a
non-dict subtopic (lines 285–299), else the full record (lines 301–320). -/
def subtopicRecOf (maintopic_num maintopic_title : Val) (subtopic : Val) : SubtopicRec :=
  match subtopic with
  | .dict d =>
      let subtopic_num := coerceNum (dget d "subtopic_number" (.str ""))
      let subtopic_title := dget d "title" (.str "")
      let subtopic_desc := pyOr (dget d "description" (.str "")) (.str "")
      let subtopic_duration := dget d "duration_minutes" (.int 0)
      let subnodes := safe_list (dget1 d "subnodes")
      ⟨maintopic_num, maintopic_title, subtopic_num, subtopic_title,
       if truthy maintopic_num || truthy subtopic_num then
         pyStr maintopic_num ++ "." ++ pyStr subtopic_num else "",
       if truthy subtopic_num then
         pyStr maintopic_num ++ "." ++ pyStr subtopic_num ++ " - " ++ pyStr subtopic_title
       else
         pyStr maintopic_num ++ ". - " ++ pyStr subtopic_title,
       subtopic_desc, subtopic_duration, subnodes⟩
  | _ =>
      let title := safe_str subtopic none
      ⟨maintopic_num, maintopic_title, Val.str "", Val.str title,
       pyStr maintopic_num ++ ".",
       pyStr maintopic_num ++ ". - " ++ title,
       Val.str "", Val.int 0, []⟩

/-- The subtopic records contributed by one maintopic entry: none for a
non-dict entry (lines 274–275), else one record per subtopic. -/
def entrySubtopics (entry : Val) : List SubtopicRec :=
  match entry with
  | .dict e =>
      let maintopic := safe_dict (dget1 e "maintopic")
      let subtopics := safe_list (dget1 e "subtopics")
      let maintopic_num := coerceNum (dget maintopic "maintopic_number" (.str ""))
      let maintopic_title := dget maintopic "title" (.str "")
      subtopics.map (subtopicRecOf maintopic_num maintopic_title)
  | _ => []

/-- `extract_subtopics_from_toc`. -/
def extract_subtopics_from_toc (toc_data : Val) : List SubtopicRec :=
  (tocMaintopics toc_data).flatMap entrySubtopics

/-! ## `extract_subnodes_from_toc` (lines 324–381) -/

/-- A sub-node selector record. `display_name` is the raw sub-node title
value when `full_number` is empty (line 375), so it is `Val`. -/
structure SubnodeRec where
  maintopic_number : Val
  maintopic_title : Val
  subtopic_number : Val
  subtopic_title : Val
  subnode_index : Nat
  subnode_title : Val
  full_number : String
  display_name : Val
  description : String
  duration : Val
  level : String

/-- The record emitted for the sub-node at 1-based index `idx`
(lines 356–379). -/
def subnodeRecOf (maintopic_num maintopic_title subtopic_num subtopic_title : Val)
    (idx : Nat) (subnode : Val) : SubnodeRec :=
  let titleDur : Val × Val :=
    match subnode with
    | .dict d =>
        (pyOr (dget d "title" (.str "")) (pyOr (dget d "name" (.str "")) (.str (pyStr subnode))),
         dget d "duration_minutes" (.int 0))
    | _ => (Val.str (safe_str subnode none), Val.int 0)
  let subnode_title := titleDur.1
  let subnode_duration := titleDur.2
  let full_number :=
    if truthy maintopic_num && truthy subtopic_num then
      pyStr maintopic_num ++ "." ++ pyStr subtopic_num ++ "." ++ toString idx
    else ""
  ⟨maintopic_num, maintopic_title, subtopic_num, subtopic_title, idx, subnode_title,
   full_number,
   if full_number.isEmpty then subnode_title
   else Val.str (full_number ++ " - " ++ pyStr subnode_title),
   "", subnode_duration, "subnode"⟩

/-- `enumerate(subnodes, 1)`: records for a sub-node list starting at
index `i`. -/
def subnodeRecsFrom (maintopic_num maintopic_title subtopic_num subtopic_title : Val) :
    Nat → List Val → List SubnodeRec
  | _, [] => []
  | i, v :: rest =>
      subnodeRecOf maintopic_num maintopic_title subtopic_num subtopic_title i v ::
      subnodeRecsFrom maintopic_num maintopic_title subtopic_num subtopic_title (i + 1) rest

/-- The sub-node records contributed by one subtopic value: none for a
non-dict subtopic (lines 345–346). -/
def subtopicSubnodes (maintopic_num maintopic_title : Val) (subtopic : Val) :
    List SubnodeRec :=
  match subtopic with
  | .dict d =>
      let subtopic_num := coerceNum (dget d "subtopic_number" (.str ""))
      let subtopic_title := dget d "title" (.str "")
      subnodeRecsFrom maintopic_num maintopic_title subtopic_num subtopic_title 1
        (safe_list (dget1 d "subnodes"))
  | _ => []

/-- The sub-node records contributed by one maintopic entry: none for a
non-dict entry (lines 334–335). -/
def entrySubnodes (entry : Val) : List SubnodeRec :=
  match entry with
  | .dict e =>
      let maintopic := safe_dict (dget1 e "maintopic")
      let subtopics := safe_list (dget1 e "subtopics")
      let maintopic_num := coerceNum (dget maintopic "maintopic_number" (.str ""))
      let maintopic_title := dget maintopic "title" (.str "")
      subtopics.flatMap (subtopicSubnodes maintopic_num maintopic_title)
  | _ => []

/-- `extract_subnodes_from_toc`. -/
def extract_subnodes_from_toc (toc_data : Val) : List SubnodeRec :=
  (tocMaintopics toc_data).flatMap entrySubnodes

/-! ## Document-building helpers used in theorem statements -/

/-- A course document with the given maintopic entry list. -/
def mkToc (entries : List Val) : Val :=
  .dict [("maintopics_with_subtopics", .list entries)]

/-- A maintopic entry with the given `maintopic` value and subtopic list. -/
def mkEntry (maintopic : Val) (subtopics : List Val) : Val :=
  .dict [("maintopic", maintopic), ("subtopics", .list subtopics)]

/-! ## Well-formed course documents

Structured documents of the expected shapes (spec §3), with an encoder
into `Val`. Used to state the claims about well-formed inputs. -/

/-- A structured (dict-form) sub-node. -/
structure WSubnodeObj where
  title : String
  duration_minutes : Int

/-- A sub-node: a bare label or a structured object. -/
inductive WSubnode where
  | bare (label : String)
  | node (n : WSubnodeObj)

/-- A well-formed subtopic. -/
structure WSubtopic where
  number : String
  title : String
  description : String
  duration_minutes : Int
  subnodes : List WSubnode

/-- A well-formed maintopic header. -/
structure WMaintopic where
  number : String
  title : String
  duration : String
  difficulty_level : String
  description : String

/-- A well-formed maintopic entry. -/
structure WEntry where
  maintopic : WMaintopic
  subtopics : List WSubtopic

/-- A well-formed course document. -/
structure WCourse where
  entries : List WEntry

def encSubnode : WSubnode → Val
  | .bare s => .str s
  | .node n => .dict [("title", .str n.title), ("duration_minutes", .int n.duration_minutes)]

def encSubtopic (s : WSubtopic) : Val :=
  .dict [("subtopic_number", .str s.number), ("title", .str s.title),
         ("description", .str s.description), ("duration_minutes", .int s.duration_minutes),
         ("subnodes", .list (s.subnodes.map encSubnode))]

def encMaintopic (m : WMaintopic) : Val :=
  .dict [("maintopic_number", .str m.number), ("title", .str m.title),
         ("duration", .str m.duration), ("difficulty_level", .str m.difficulty_level),
         ("description", .str m.description)]

def encEntry (e : WEntry) : Val :=
  mkEntry (encMaintopic e.maintopic) (e.subtopics.map encSubtopic)

def encCourse (c : WCourse) : Val :=
  mkToc (c.entries.map encEntry)

/-- Assembly following the spec's words for row order (spec §8): "a
Maintopic row is immediately followed by its own Subtopic rows, each
immediately followed by its own Subnode rows, before any sibling
Maintopic row appears" — stated as a depth-first pre-order flattening of
the structured course, one row per entity. -/
def preorderRowsSpec (c : WCourse) : List Row :=
  c.entries.flatMap (fun e =>
    maintopicHeadRow (safe_dict (encMaintopic e.maintopic)) ::
    e.subtopics.flatMap (fun s =>
      subtopicHeadRow (Val.str e.maintopic.number) (safe_dict (encSubtopic s)) ::
      s.subnodes.map (fun n => subnodeRowOf (encSubnode n))))

/-- Total number of subtopics of a well-formed course. -/
def subtopicTotal (c : WCourse) : Nat :=
  (c.entries.map (fun e => e.subtopics.length)).sum

/-- Total number of sub-nodes of a well-formed course. -/
def subnodeTotal (c : WCourse) : Nat :=
  (c.entries.map (fun e => (e.subtopics.map (fun s => s.subnodes.length)).sum)).sum

/-- The coerced maintopic number of an entry's `maintopic` value. -/
def entryNum (maintopic : Val) : Val :=
  coerceNum (dget (safe_dict maintopic) "maintopic_number" (Val.str ""))

/-- The maintopic title of an entry's `maintopic` value as the extractors
read it (default `""`). -/
def entryTitle (maintopic : Val) : Val :=
  dget (safe_dict maintopic) "title" (Val.str "")

/-- Sub-node values the summary loops iterate over: sub-nodes of dict
subtopics of dict maintopic entries. -/
def reachableSubnodes (toc_data : Val) : List Val :=
  (sane_maintopics toc_data).flatMap (fun m =>
    ((safe_list (dget1 (safe_dict m) "subtopics")).filter Val.isDict).flatMap (fun s =>
      safe_list (dget1 (safe_dict s) "subnodes")))

/-- Number of Subnode rows in the hierarchical table. -/
def subnodeRowCount (toc_data : Val) : Nat :=
  ((rowsOf toc_data).filter (fun r => r.level = "    • Subnode")).length

/-! ## Supporting lemmas -/

lemma safe_dict_nondict (v : Val) (h : v.isDict = false) : safe_dict v = [] := by
  cases v <;> simp_all [safe_dict, Val.isDict]

lemma entrySubtopics_nondict (v : Val) (h : v.isDict = false) : entrySubtopics v = [] := by
  cases v <;> simp_all [entrySubtopics, Val.isDict]

lemma entrySubnodes_nondict (v : Val) (h : v.isDict = false) : entrySubnodes v = [] := by
  cases v <;> simp_all [entrySubnodes, Val.isDict]

lemma subtopicSubnodes_nondict (mn mt : Val) (v : Val) (h : v.isDict = false) :
    subtopicSubnodes mn mt v = [] := by
  cases v <;> simp_all [subtopicSubnodes, Val.isDict]

lemma entryBlock_nondict (v : Val) (h : v.isDict = false) :
    entryBlock v = [⟨"⚠️ Error", "", Val.str (safe_str v none), "", Val.str ""⟩] := by
  cases v <;> simp_all [entryBlock, Val.isDict]

lemma subtopicBlock_nondict (mn : Val) (v : Val) (h : v.isDict = false) :
    subtopicBlock mn v = [⟨"  ⚠️ Error", "", Val.str (safe_str v none), "", Val.str ""⟩] := by
  cases v <;> simp_all [subtopicBlock, Val.isDict]

lemma subtopicRecOf_nondict (mn mt : Val) (v : Val) (h : v.isDict = false) :
    subtopicRecOf mn mt v =
      ⟨mn, mt, Val.str "", Val.str (safe_str v none),
       pyStr mn ++ ".", pyStr mn ++ ". - " ++ safe_str v none,
       Val.str "", Val.int 0, []⟩ := by
  cases v <;> simp_all [subtopicRecOf, Val.isDict]

lemma tocMaintopics_mkToc (l : List Val) : tocMaintopics (mkToc l) = l := rfl

lemma rowsOf_mkToc (l : List Val) : rowsOf (mkToc l) = l.flatMap entryBlock := rfl

lemma extract_subtopics_mkToc (l : List Val) :
    extract_subtopics_from_toc (mkToc l) = l.flatMap entrySubtopics := rfl

lemma extract_subnodes_mkToc (l : List Val) :
    extract_subnodes_from_toc (mkToc l) = l.flatMap entrySubnodes := rfl

lemma entryBlock_mkEntry (mval : Val) (subs : List Val) :
    entryBlock (mkEntry mval subs) =
      maintopicHeadRow (safe_dict mval) :: subs.flatMap (subtopicBlock (entryNum mval)) := rfl

lemma entrySubtopics_mkEntry (mval : Val) (subs : List Val) :
    entrySubtopics (mkEntry mval subs) =
      subs.map (subtopicRecOf (entryNum mval) (entryTitle mval)) := rfl

lemma entrySubnodes_mkEntry (mval : Val) (subs : List Val) :
    entrySubnodes (mkEntry mval subs) =
      subs.flatMap (subtopicSubnodes (entryNum mval) (entryTitle mval)) := rfl

/-! ## Claims -/

/-- C1: the extractors are total by construction (they are Lean functions
defined on every `Val`), every traversal step degrades to a default: a
non-dict document yields the empty output, a non-dict `maintopic` field
behaves as the empty dict without blocking the subtopics, a non-dict
maintopic entry or subtopic contributes nothing — and no well-formed
substructure is skipped because a sibling was malformed: a malformed
subtopic sibling leaves the sub-node records of the other subtopics
unchanged. -/
theorem extractors_total_and_degrading :
    (∀ v : Val, v.isDict = false →
        extract_subtopics_from_toc v = [] ∧ extract_subnodes_from_toc v = []) ∧
    (∀ mval : Val, mval.isDict = false → ∀ subs : List Val,
        entrySubtopics (mkEntry mval subs) = entrySubtopics (mkEntry (Val.dict []) subs) ∧
        entrySubnodes (mkEntry mval subs) = entrySubnodes (mkEntry (Val.dict []) subs)) ∧
    (∀ bad : Val, bad.isDict = false →
        entrySubtopics bad = [] ∧ entrySubnodes bad = []) ∧
    (∀ badSub : Val, badSub.isDict = false → ∀ mval : Val, ∀ spre spost : List Val,
        entrySubnodes (mkEntry mval (spre ++ badSub :: spost)) =
          entrySubnodes (mkEntry mval (spre ++ spost))) := by
  refine ⟨?_, ?_, ?_, ?_⟩
  · intro v hv
    have h : safe_dict v = [] := safe_dict_nondict v hv
    constructor <;>
      simp [extract_subtopics_from_toc, extract_subnodes_from_toc, tocMaintopics, h,
            dget1, dget, dLookup, safe_list]
  · intro mval hm subs
    have h : safe_dict mval = [] := safe_dict_nondict mval hm
    have h1 : entryNum mval = entryNum (Val.dict []) := by
      unfold entryNum; rw [h]; exact rfl
    have h2 : entryTitle mval = entryTitle (Val.dict []) := by
      unfold entryTitle; rw [h]; exact rfl
    constructor <;> simp [entrySubtopics_mkEntry, entrySubnodes_mkEntry, h1, h2]
  · intro bad hbad
    exact ⟨entrySubtopics_nondict bad hbad, entrySubnodes_nondict bad hbad⟩
  · intro badSub hbad mval spre spost
    simp [entrySubnodes_mkEntry, List.flatMap_append, List.flatMap_cons,
          subtopicSubnodes_nondict _ _ badSub hbad]

/-- Witness for C1 at concrete inputs: a non-dict document and a malformed
subtopic sibling. -/
theorem extractors_total_and_degrading_witness :
    (extract_subtopics_from_toc (Val.str "junk") = [] ∧
     extract_subnodes_from_toc (Val.str "junk") = []) ∧
    entrySubnodes (mkEntry (Val.dict []) ([] ++ Val.str "oops" :: [Val.dict []])) =
      entrySubnodes (mkEntry (Val.dict []) ([] ++ [Val.dict []])) :=
  ⟨extractors_total_and_degrading.1 (Val.str "junk") rfl,
   extractors_total_and_degrading.2.2.2 (Val.str "oops") rfl (Val.dict []) [] [Val.dict []]⟩

/-- C5 counterexample: for the document whose only subtopic entry is the
bare string `"oops"`, `extract_subtopics_from_toc` emits the minimal
record with duration `0`, not the claimed `5`. -/
theorem subtopic_minimal_duration_counterexample :
    (extract_subtopics_from_toc
        (mkToc [mkEntry (Val.dict [("maintopic_number", Val.str "2"),
                                   ("title", Val.str "M")])
                        [Val.str "oops"]])).map SubtopicRec.duration = [Val.int 0] ∧
      Val.int 0 ≠ Val.int 5 := by
  refine ⟨rfl, ?_⟩
  intro h
  injection h with h'
  exact absurd h' (by decide)

/-- C5 (amended): for every subtopic entry that is not a mapping,
`extract_subtopics_from_toc` still emits a minimal Selector Record using
the entry's string form as its title, with the duration field defaulted
to `0`. -/
theorem subtopic_minimal_record :
    (∀ m mt sub : Val, sub.isDict = false →
        subtopicRecOf m mt sub =
          ⟨m, mt, Val.str "", Val.str (safe_str sub none),
           pyStr m ++ ".", pyStr m ++ ". - " ++ safe_str sub none,
           Val.str "", Val.int 0, []⟩) ∧
    (∀ (mnum mtitle : String) (sub : Val), sub.isDict = false →
        extract_subtopics_from_toc
            (mkToc [mkEntry (Val.dict [("maintopic_number", Val.str mnum),
                                       ("title", Val.str mtitle)])
                            [sub]]) =
          [⟨Val.str mnum, Val.str mtitle, Val.str "", Val.str (safe_str sub none),
            mnum ++ ".", mnum ++ ". - " ++ safe_str sub none,
            Val.str "", Val.int 0, []⟩]) := by
  constructor
  · exact subtopicRecOf_nondict
  · intro mnum mtitle sub hsub
    simp [extract_subtopics_mkToc, entrySubtopics_mkEntry, entryNum, entryTitle,
          safe_dict, dget, dget1, dLookup, coerceNum, Val.isIntLike, pyStr,
          subtopicRecOf_nondict _ _ sub hsub]

/-- Witness for C5 (amended) at the concrete bare-string subtopic
`"oops"`. -/
theorem subtopic_minimal_record_witness :
    extract_subtopics_from_toc
        (mkToc [mkEntry (Val.dict [("maintopic_number", Val.str "7"),
                                   ("title", Val.str "T")])
                        [Val.str "oops"]]) =
      [⟨Val.str "7", Val.str "T", Val.str "", Val.str (safe_str (Val.str "oops") none),
        "7" ++ ".", "7" ++ ". - " ++ safe_str (Val.str "oops") none,
        Val.str "", Val.int 0, []⟩] :=
  subtopic_minimal_record.2 "7" "T" (Val.str "oops") rfl

/-- C10: for every non-mapping maintopic entry, both extractors skip the
entry entirely — their output on the document equals their output on the
same document with the entry removed — while the rows traversal emits a
visible Error row for the same entry at its position. -/
theorem extractors_skip_nondict_entry :
    ∀ bad : Val, bad.isDict = false → ∀ pre post : List Val,
      extract_subtopics_from_toc (mkToc (pre ++ bad :: post)) =
        extract_subtopics_from_toc (mkToc (pre ++ post)) ∧
      extract_subnodes_from_toc (mkToc (pre ++ bad :: post)) =
        extract_subnodes_from_toc (mkToc (pre ++ post)) ∧
      rowsOf (mkToc (pre ++ bad :: post)) =
        pre.flatMap entryBlock ++
          (⟨"⚠️ Error", "", Val.str (safe_str bad none), "", Val.str ""⟩ : Row) ::
          post.flatMap entryBlock := by
  intro bad hbad pre post
  refine ⟨?_, ?_, ?_⟩
  · simp [extract_subtopics_mkToc, List.flatMap_append, List.flatMap_cons,
          entrySubtopics_nondict bad hbad]
  · simp [extract_subnodes_mkToc, List.flatMap_append, List.flatMap_cons,
          entrySubnodes_nondict bad hbad]
  · simp [rowsOf_mkToc, List.flatMap_append, List.flatMap_cons,
          entryBlock_nondict bad hbad]

/-- Witness for C10 at a concrete document: a bare-string entry between
two empty dict entries. -/
theorem extractors_skip_nondict_entry_witness :
    extract_subtopics_from_toc (mkToc ([Val.dict []] ++ Val.str "bad" :: [Val.dict []])) =
      extract_subtopics_from_toc (mkToc ([Val.dict []] ++ [Val.dict []])) ∧
    extract_subnodes_from_toc (mkToc ([Val.dict []] ++ Val.str "bad" :: [Val.dict []])) =
      extract_subnodes_from_toc (mkToc ([Val.dict []] ++ [Val.dict []])) ∧
    rowsOf (mkToc ([Val.dict []] ++ Val.str "bad" :: [Val.dict []])) =
      [Val.dict []].flatMap entryBlock ++
        (⟨"⚠️ Error", "", Val.str (safe_str (Val.str "bad") none), "", Val.str ""⟩ : Row) ::
        [Val.dict []].flatMap entryBlock :=
  extractors_skip_nondict_entry (Val.str "bad") rfl [Val.dict []] [Val.dict []]

/-- C8: whenever the sanitized maintopic list of a document is empty (the
top-level list is `[]`, absent, or malformed), the display routine
signals "no data" carrying the (sanitized) document instead of raising,
the row sequence is empty, all three summary counts are zero, and the
total-duration metric reports "not applicable" (`none`). -/
theorem empty_document_no_data :
    ∀ toc_data : Val, tocMaintopics toc_data = [] →
      display_toc_hierarchical toc_data = .noData (Val.dict (safe_dict toc_data)) ∧
      rowsOf toc_data = [] ∧
      maintopic_count toc_data = 0 ∧
      subtopic_count toc_data = 0 ∧
      subnode_count toc_data = 0 ∧
      total_minutes toc_data = 0 ∧
      durationMetric none toc_data = none := by
  intro toc h
  refine ⟨?_, ?_, ?_, ?_, ?_, ?_, ?_⟩ <;>
    simp [display_toc_hierarchical, rowsOf, maintopic_count, subtopic_count,
          subnode_count, total_minutes, sane_maintopics, durationMetric, total_hours, h]

/-- Witness for C8 at the concrete document
`{maintopics_with_subtopics: []}`. -/
theorem empty_document_no_data_witness :
    display_toc_hierarchical (mkToc []) = .noData (Val.dict (safe_dict (mkToc []))) ∧
    rowsOf (mkToc []) = [] ∧
    maintopic_count (mkToc []) = 0 ∧
    subtopic_count (mkToc []) = 0 ∧
    subnode_count (mkToc []) = 0 ∧
    total_minutes (mkToc []) = 0 ∧
    durationMetric none (mkToc []) = none :=
  empty_document_no_data (mkToc []) rfl

/-- C9: for every course document in which one subtopic entry is the
literal string `"oops"`, the rows traversal emits exactly one Error row
carrying that entry's display string at that entry's position, and all
sibling subtopic blocks before and after it — and all sibling maintopic
entries — produce exactly the same rows as they would if the malformed
entry were absent. -/
theorem malformed_subtopic_error_row (mval : Val) (spre spost preE postE : List Val) :
    rowsOf (mkToc (preE ++ mkEntry mval (spre ++ Val.str "oops" :: spost) :: postE)) =
      preE.flatMap entryBlock ++
      (maintopicHeadRow (safe_dict mval) ::
        (spre.flatMap (subtopicBlock (entryNum mval)) ++
         (⟨"  ⚠️ Error", "", Val.str "oops", "", Val.str ""⟩ : Row) ::
         spost.flatMap (subtopicBlock (entryNum mval)))) ++
      postE.flatMap entryBlock ∧
    rowsOf (mkToc (preE ++ mkEntry mval (spre ++ spost) :: postE)) =
      preE.flatMap entryBlock ++
      (maintopicHeadRow (safe_dict mval) ::
        (spre.flatMap (subtopicBlock (entryNum mval)) ++
         spost.flatMap (subtopicBlock (entryNum mval)))) ++
      postE.flatMap entryBlock := by
  have hoops : subtopicBlock (entryNum mval) (Val.str "oops") =
      [⟨"  ⚠️ Error", "", Val.str "oops", "", Val.str ""⟩] := rfl
  constructor <;>
    simp [rowsOf_mkToc, List.flatMap_append, List.flatMap_cons,
          entryBlock_mkEntry, hoops]

/-- C4: two documents that are identical except that a maintopic number
(or a subtopic number) is the integer `n` in one and the string form of
`n` in the other produce identical rows, identical subtopic selector
records and identical sub-node selector records — numbers are coerced to
a canonical string form before concatenation, independently at each
level. -/
theorem numbering_canonicalization :
    (∀ (n : Int) (mrest erest : List (String × Val)) (pre post : List Val),
        rowsOf (mkToc (pre ++
            Val.dict (("maintopic", Val.dict (("maintopic_number", Val.int n) :: mrest)) :: erest)
            :: post)) =
          rowsOf (mkToc (pre ++
            Val.dict (("maintopic", Val.dict (("maintopic_number", Val.str (toString n)) :: mrest)) :: erest)
            :: post)) ∧
        extract_subtopics_from_toc (mkToc (pre ++
            Val.dict (("maintopic", Val.dict (("maintopic_number", Val.int n) :: mrest)) :: erest)
            :: post)) =
          extract_subtopics_from_toc (mkToc (pre ++
            Val.dict (("maintopic", Val.dict (("maintopic_number", Val.str (toString n)) :: mrest)) :: erest)
            :: post)) ∧
        extract_subnodes_from_toc (mkToc (pre ++
            Val.dict (("maintopic", Val.dict (("maintopic_number", Val.int n) :: mrest)) :: erest)
            :: post)) =
          extract_subnodes_from_toc (mkToc (pre ++
            Val.dict (("maintopic", Val.dict (("maintopic_number", Val.str (toString n)) :: mrest)) :: erest)
            :: post))) ∧
    (∀ (n : Int) (srest : List (String × Val)) (mval : Val) (spre spost pre post : List Val),
        rowsOf (mkToc (pre ++
            mkEntry mval (spre ++ Val.dict (("subtopic_number", Val.int n) :: srest) :: spost)
            :: post)) =
          rowsOf (mkToc (pre ++
            mkEntry mval (spre ++ Val.dict (("subtopic_number", Val.str (toString n)) :: srest) :: spost)
            :: post)) ∧
        extract_subtopics_from_toc (mkToc (pre ++
            mkEntry mval (spre ++ Val.dict (("subtopic_number", Val.int n) :: srest) :: spost)
            :: post)) =
          extract_subtopics_from_toc (mkToc (pre ++
            mkEntry mval (spre ++ Val.dict (("subtopic_number", Val.str (toString n)) :: srest) :: spost)
            :: post)) ∧
        extract_subnodes_from_toc (mkToc (pre ++
            mkEntry mval (spre ++ Val.dict (("subtopic_number", Val.int n) :: srest) :: spost)
            :: post)) =
          extract_subnodes_from_toc (mkToc (pre ++
            mkEntry mval (spre ++ Val.dict (("subtopic_number", Val.str (toString n)) :: srest) :: spost)
            :: post))) := by
  have hc : ∀ n : Int, coerceNum (Val.int n) = coerceNum (Val.str (toString n)) := by
    intro n
    simp [coerceNum, Val.isIntLike, pyStr]
  constructor
  · intro n mrest erest pre post
    refine ⟨?_, ?_, ?_⟩ <;>
      simp [rowsOf_mkToc, extract_subtopics_mkToc, extract_subnodes_mkToc,
            List.flatMap_append, List.flatMap_cons,
            entryBlock, entrySubtopics, entrySubnodes, maintopicHeadRow,
            safe_dict, safe_list, dget, dget1, dLookup, hc n]
  · intro n srest mval spre spost pre post
    have hs : ∀ numv : Val,
        subtopicBlock (entryNum mval) (Val.dict (("subtopic_number", numv) :: srest)) =
          subtopicHeadRow (entryNum mval) (("subtopic_number", numv) :: srest) ::
          (safe_list (dget1 (("subtopic_number", numv) :: srest) "subnodes")).map subnodeRowOf :=
      fun _ => rfl
    refine ⟨?_, ?_, ?_⟩ <;>
      simp [rowsOf_mkToc, extract_subtopics_mkToc, extract_subnodes_mkToc,
            List.flatMap_append, List.flatMap_cons,
            entryBlock_mkEntry, entrySubtopics_mkEntry, entrySubnodes_mkEntry,
            hs, subtopicHeadRow, subtopicRecOf, subtopicSubnodes,
            dget, dget1, dLookup, hc n]

lemma entryBlock_encEntry (e : WEntry) :
    entryBlock (encEntry e) =
      maintopicHeadRow (safe_dict (encMaintopic e.maintopic)) ::
      (e.subtopics.map encSubtopic).flatMap (subtopicBlock (Val.str e.maintopic.number)) := rfl

lemma subtopicBlock_encSubtopic (numv : Val) (s : WSubtopic) :
    subtopicBlock numv (encSubtopic s) =
      subtopicHeadRow numv (safe_dict (encSubtopic s)) ::
      (s.subnodes.map encSubnode).map subnodeRowOf := rfl

lemma subnodeRowOf_level (v : Val) : (subnodeRowOf v).level = "    • Subnode" := by
  cases v <;> rfl

/-- C2: on every well-formed course document the flattened row sequence is
in exact depth-first pre-order: each Maintopic row is immediately followed
by that main topic's Subtopic rows in document order, each Subtopic row
immediately followed by that subtopic's Subnode rows in document order,
before any sibling Maintopic row appears; the three row kinds are
identified by their distinct level labels. -/
theorem rows_depth_first_preorder :
    (∀ c : WCourse, rowsOf (encCourse c) = preorderRowsSpec c) ∧
    (∀ m, (maintopicHeadRow m).level = "📚 Maintopic") ∧
    (∀ numv d, (subtopicHeadRow numv d).level = "  📖 Subtopic") ∧
    (∀ v, (subnodeRowOf v).level = "    • Subnode") := by
  refine ⟨?_, fun m => rfl, fun numv d => rfl, subnodeRowOf_level⟩
  intro c
  simp [preorderRowsSpec, encCourse, rowsOf_mkToc, List.flatMap_map, List.map_map,
        entryBlock_encEntry, subtopicBlock_encSubtopic, Function.comp_def]

lemma sum_map_succ (l : List WSubtopic) :
    (l.map (fun s => s.subnodes.length + 1)).sum =
      (l.map (fun s => s.subnodes.length)).sum + l.length := by
  induction l with
  | nil => simp
  | cons h t ih => simp [ih]; omega

lemma entryBlock_encEntry_length (e : WEntry) :
    (entryBlock (encEntry e)).length =
      1 + e.subtopics.length + (e.subtopics.map (fun s => s.subnodes.length)).sum := by
  simp [entryBlock_encEntry, List.length_flatMap, List.flatMap_map, List.map_map,
        subtopicBlock_encSubtopic, Function.comp_def, sum_map_succ]
  omega

lemma rows_length_entries (es : List WEntry) :
    ((es.map encEntry).flatMap entryBlock).length =
      es.length + (es.map (fun e => e.subtopics.length)).sum +
      (es.map (fun e => (e.subtopics.map (fun s => s.subnodes.length)).sum)).sum := by
  induction es with
  | nil => simp
  | cons e t ih => simp [entryBlock_encEntry_length, ih]; omega

/-- C3: for every well-formed course document the row sequence has length
equal to the number of main topics plus the total number of subtopics
plus the total number of sub-nodes (one row per entity); and inserting a
malformed (non-mapping) sibling — a maintopic entry or a subtopic entry —
adds exactly one (Error) row. -/
theorem rows_length_one_per_entity :
    (∀ c : WCourse,
        (rowsOf (encCourse c)).length =
          c.entries.length + subtopicTotal c + subnodeTotal c) ∧
    (∀ bad : Val, bad.isDict = false → ∀ pre post : List Val,
        (rowsOf (mkToc (pre ++ bad :: post))).length =
          (rowsOf (mkToc (pre ++ post))).length + 1) ∧
    (∀ badSub : Val, badSub.isDict = false →
        ∀ (mval : Val) (spre spost pre post : List Val),
        (rowsOf (mkToc (pre ++ mkEntry mval (spre ++ badSub :: spost) :: post))).length =
          (rowsOf (mkToc (pre ++ mkEntry mval (spre ++ spost) :: post))).length + 1) := by
  refine ⟨?_, ?_, ?_⟩
  · intro c
    simpa [encCourse, rowsOf_mkToc, subtopicTotal, subnodeTotal] using
      rows_length_entries c.entries
  · intro bad hbad pre post
    simp [rowsOf_mkToc, List.flatMap_append, List.flatMap_cons,
          entryBlock_nondict bad hbad]
    omega
  · intro badSub hbad mval spre spost pre post
    simp [rowsOf_mkToc, List.flatMap_append, List.flatMap_cons,
          entryBlock_mkEntry, subtopicBlock_nondict _ badSub hbad]
    omega

/-- Witness for C3's malformed-sibling conjuncts at concrete documents. -/
theorem rows_length_one_per_entity_witness :
    (rowsOf (mkToc ([] ++ Val.str "bad" :: []))).length =
      (rowsOf (mkToc ([] ++ []))).length + 1 ∧
    (rowsOf (mkToc ([] ++ mkEntry (Val.dict []) ([] ++ Val.int 3 :: []) :: []))).length =
      (rowsOf (mkToc ([] ++ mkEntry (Val.dict []) ([] ++ []) :: []))).length + 1 :=
  ⟨rows_length_one_per_entity.2.1 (Val.str "bad") rfl [] [],
   rows_length_one_per_entity.2.2 (Val.int 3) rfl (Val.dict []) [] [] [] []⟩

lemma subnodeRecsFrom_mem (mn mt sn st : Val) :
    ∀ (sns : List Val) (i : Nat) (r : SubnodeRec), r ∈ subnodeRecsFrom mn mt sn st i sns →
      r.full_number =
        (if truthy r.maintopic_number && truthy r.subtopic_number then
          pyStr r.maintopic_number ++ "." ++ pyStr r.subtopic_number ++ "." ++
            toString r.subnode_index
        else "") ∧
      r.display_name =
        (if r.full_number.isEmpty then r.subnode_title
        else Val.str (r.full_number ++ " - " ++ pyStr r.subnode_title)) := by
  intro sns
  induction sns with
  | nil => intro i r h; simp [subnodeRecsFrom] at h
  | cons v t ih =>
      intro i r h
      rw [subnodeRecsFrom] at h
      rcases List.mem_cons.mp h with h1 | h2
      · subst h1
        constructor <;> simp [subnodeRecOf]
      · exact ih (i + 1) r h2

lemma subnodeRecsFrom_indices (mn mt sn st : Val) :
    ∀ (sns : List Val) (i : Nat),
      (subnodeRecsFrom mn mt sn st i sns).map (fun r => r.subnode_index) =
        List.range' i sns.length := by
  intro sns
  induction sns with
  | nil => intro i; rfl
  | cons v t ih =>
      intro i
      simp [subnodeRecsFrom, List.range'_succ, subnodeRecOf, ih (i + 1)]

/-- C6: every record emitted by `extract_subnodes_from_toc` satisfies the
numbering contract: its `full_number` is the dotted composite
`maintopic.subtopic.index` exactly when both (coerced) ancestor numbers
are truthy and is the empty string otherwise, and its `display_name`
falls back to the bare sub-node title exactly when `full_number` is
empty; moreover the records of a subtopic's sub-node list carry the
1-based positional indices `1, 2, …, n` in order (not a number sourced
from the document). -/
theorem subnode_records_numbering :
    (∀ (toc_data : Val) (r : SubnodeRec), r ∈ extract_subnodes_from_toc toc_data →
        r.full_number =
          (if truthy r.maintopic_number && truthy r.subtopic_number then
            pyStr r.maintopic_number ++ "." ++ pyStr r.subtopic_number ++ "." ++
              toString r.subnode_index
          else "") ∧
        r.display_name =
          (if r.full_number.isEmpty then r.subnode_title
          else Val.str (r.full_number ++ " - " ++ pyStr r.subnode_title))) ∧
    (∀ (mn mt sn st : Val) (sns : List Val),
        (subnodeRecsFrom mn mt sn st 1 sns).map (fun r => r.subnode_index) =
          List.range' 1 sns.length) := by
  constructor
  · intro toc r hr
    rw [extract_subnodes_from_toc] at hr
    rcases List.mem_flatMap.mp hr with ⟨entry, _, hr2⟩
    cases entry with
    | dict e =>
        rw [entrySubnodes] at hr2
        rcases List.mem_flatMap.mp hr2 with ⟨sub, _, hr3⟩
        cases sub with
        | dict d =>
            rw [subtopicSubnodes] at hr3
            exact subnodeRecsFrom_mem _ _ _ _ _ 1 r hr3
        | null => simp [subtopicSubnodes] at hr3
        | bool b => simp [subtopicSubnodes] at hr3
        | int n => simp [subtopicSubnodes] at hr3
        | str s => simp [subtopicSubnodes] at hr3
        | list l => simp [subtopicSubnodes] at hr3
    | null => simp [entrySubnodes] at hr2
    | bool b => simp [entrySubnodes] at hr2
    | int n => simp [entrySubnodes] at hr2
    | str s => simp [entrySubnodes] at hr2
    | list l => simp [entrySubnodes] at hr2
  · intro mn mt sn st sns
    exact subnodeRecsFrom_indices mn mt sn st sns 1

/-- Witness for C6 at a concrete document with one sub-node `"A"` under
subtopic number `2` of maintopic number `"1"`. -/
theorem subnode_records_numbering_witness :
    (⟨Val.str "1", Val.str "", Val.str "2", Val.str "", 1, Val.str "A", "1.2.1",
      Val.str "1.2.1 - A", "", Val.int 0, "subnode"⟩ : SubnodeRec).full_number =
      (if truthy (⟨Val.str "1", Val.str "", Val.str "2", Val.str "", 1, Val.str "A", "1.2.1",
          Val.str "1.2.1 - A", "", Val.int 0, "subnode"⟩ : SubnodeRec).maintopic_number &&
          truthy (⟨Val.str "1", Val.str "", Val.str "2", Val.str "", 1, Val.str "A", "1.2.1",
          Val.str "1.2.1 - A", "", Val.int 0, "subnode"⟩ : SubnodeRec).subtopic_number then
        pyStr (Val.str "1") ++ "." ++ pyStr (Val.str "2") ++ "." ++ toString 1
      else "") ∧
    (⟨Val.str "1", Val.str "", Val.str "2", Val.str "", 1, Val.str "A", "1.2.1",
      Val.str "1.2.1 - A", "", Val.int 0, "subnode"⟩ : SubnodeRec).display_name =
      (if ("1.2.1" : String).isEmpty then Val.str "A"
      else Val.str ("1.2.1" ++ " - " ++ pyStr (Val.str "A"))) :=
  subnode_records_numbering.1
    (mkToc [mkEntry (Val.dict [("maintopic_number", Val.str "1")])
      [Val.dict [("subtopic_number", Val.int 2), ("subnodes", Val.list [Val.str "A"])]]])
    ⟨Val.str "1", Val.str "", Val.str "2", Val.str "", 1, Val.str "A", "1.2.1",
      Val.str "1.2.1 - A", "", Val.int 0, "subnode"⟩
    (List.mem_singleton.mpr rfl)

lemma foldl_count_subnodes (sns : List Val) :
    ∀ b : Nat,
      sns.foldl (fun c n => if n.isDict then c + 1 else c) b =
        b + (sns.filter Val.isDict).length := by
  induction sns with
  | nil => intro b; simp
  | cons v t ih =>
      intro b
      cases hv : v.isDict
      · simp [hv, ih, List.filter_cons]
      · simp [hv, ih, List.filter_cons]
        omega

lemma foldl_count_subtopics (subs : List Val) :
    ∀ b : Nat,
      subs.foldl (fun b s =>
          match s with
          | .dict d =>
              (safe_list (dget1 d "subnodes")).foldl (fun c n =>
                if n.isDict then c + 1 else c) b
          | _ => b) b =
        b + (((subs.filter Val.isDict).flatMap (fun s =>
          safe_list (dget1 (safe_dict s) "subnodes"))).filter Val.isDict).length := by
  induction subs with
  | nil => intro b; simp
  | cons v t ih =>
      intro b
      cases v with
      | dict d =>
          simp only [List.foldl_cons]
          rw [ih, foldl_count_subnodes]
          simp [List.filter_cons, List.flatMap_cons, List.filter_append, Val.isDict,
                safe_dict]
          omega
      | null => simpa [List.filter_cons, Val.isDict] using ih b
      | bool x => simpa [List.filter_cons, Val.isDict] using ih b
      | int x => simpa [List.filter_cons, Val.isDict] using ih b
      | str x => simpa [List.filter_cons, Val.isDict] using ih b
      | list x => simpa [List.filter_cons, Val.isDict] using ih b

lemma foldl_count_maintopics (ms : List Val) :
    ∀ b : Nat,
      ms.foldl (fun a m =>
          (safe_list (dget1 (safe_dict m) "subtopics")).foldl (fun b s =>
            match s with
            | .dict d =>
                (safe_list (dget1 d "subnodes")).foldl (fun c n =>
                  if n.isDict then c + 1 else c) b
            | _ => b) a) b =
        b + ((ms.flatMap (fun m =>
          ((safe_list (dget1 (safe_dict m) "subtopics")).filter Val.isDict).flatMap
            (fun s => safe_list (dget1 (safe_dict s) "subnodes")))).filter
          Val.isDict).length := by
  induction ms with
  | nil => intro b; simp
  | cons m t ih =>
      intro b
      simp only [List.foldl_cons]
      rw [ih, foldl_count_subtopics]
      simp [List.flatMap_cons, List.filter_append]
      omega

lemma subnode_count_eq_reachable (toc_data : Val) :
    subnode_count toc_data = ((reachableSubnodes toc_data).filter Val.isDict).length := by
  rw [subnode_count, reachableSubnodes, foldl_count_maintopics]
  omega

lemma subtopicBlock_subnode_filter (numv : Val) (sub : Val) :
    ((subtopicBlock numv sub).filter (fun r => r.level = "    • Subnode")).length =
      (if sub.isDict then (safe_list (dget1 (safe_dict sub) "subnodes")).length else 0) := by
  cases sub with
  | dict d =>
      simp [subtopicBlock, Val.isDict, safe_dict, subtopicHeadRow, List.filter_cons,
            List.filter_map, Function.comp_def, subnodeRowOf_level]
  | null => simp [subtopicBlock, Val.isDict, List.filter_cons]
  | bool x => simp [subtopicBlock, Val.isDict, List.filter_cons]
  | int x => simp [subtopicBlock, Val.isDict, List.filter_cons]
  | str x => simp [subtopicBlock, Val.isDict, List.filter_cons]
  | list x => simp [subtopicBlock, Val.isDict, List.filter_cons]

lemma subtopics_subnode_filter (numv : Val) (subs : List Val) :
    (((subs.flatMap (subtopicBlock numv)).filter
        (fun r => r.level = "    • Subnode"))).length =
      ((subs.filter Val.isDict).flatMap (fun s =>
        safe_list (dget1 (safe_dict s) "subnodes"))).length := by
  induction subs with
  | nil => simp
  | cons v t ih =>
      cases hv : v.isDict <;>
        simp [List.flatMap_cons, List.filter_append, List.filter_cons, hv, ih,
              subtopicBlock_subnode_filter, hv]

lemma entryBlock_subnode_filter (entry : Val) :
    ((entryBlock entry).filter (fun r => r.level = "    • Subnode")).length =
      (if entry.isDict then
        (((safe_list (dget1 (safe_dict entry) "subtopics")).filter Val.isDict).flatMap
          (fun s => safe_list (dget1 (safe_dict s) "subnodes"))).length
      else 0) := by
  cases entry with
  | dict e =>
      simp [entryBlock, Val.isDict, safe_dict, List.filter_cons, maintopicHeadRow,
            subtopics_subnode_filter]
  | null => simp [entryBlock, Val.isDict, List.filter_cons]
  | bool x => simp [entryBlock, Val.isDict, List.filter_cons]
  | int x => simp [entryBlock, Val.isDict, List.filter_cons]
  | str x => simp [entryBlock, Val.isDict, List.filter_cons]
  | list x => simp [entryBlock, Val.isDict, List.filter_cons]

lemma subnodeRowCount_eq_reachable (toc_data : Val) :
    subnodeRowCount toc_data = (reachableSubnodes toc_data).length := by
  rw [subnodeRowCount, rowsOf, reachableSubnodes, sane_maintopics]
  generalize tocMaintopics toc_data = ms
  induction ms with
  | nil => simp
  | cons m t ih =>
      cases hm : m.isDict <;>
        simp [List.flatMap_cons, List.filter_append, List.filter_cons, hm, ih,
              entryBlock_subnode_filter, hm]

/-- C7: the summary sub-node count counts only mapping-typed sub-node
entries reachable through dict entries and dict subtopics, while the rows
traversal emits one Subnode row for every reachable sub-node regardless
of its type; hence for documents containing a bare-string (non-mapping)
sub-node the summary count is strictly smaller than the number of Subnode
rows. -/
theorem subnode_count_asymmetry :
    (∀ toc_data : Val,
        subnode_count toc_data = ((reachableSubnodes toc_data).filter Val.isDict).length) ∧
    (∀ toc_data : Val,
        subnodeRowCount toc_data = (reachableSubnodes toc_data).length) ∧
    (∀ toc_data : Val, (∃ v ∈ reachableSubnodes toc_data, v.isDict = false) →
        subnode_count toc_data < subnodeRowCount toc_data) := by
  refine ⟨subnode_count_eq_reachable, subnodeRowCount_eq_reachable, ?_⟩
  intro toc ⟨v, hv, hnv⟩
  rw [subnode_count_eq_reachable, subnodeRowCount_eq_reachable]
  exact List.length_filter_lt_length_iff_exists.mpr ⟨v, hv, by simp [hnv]⟩

/-- Witness for C7 at a concrete document whose only sub-node is the bare
string `"A"`. -/
theorem subnode_count_asymmetry_witness :
    subnode_count (mkToc [mkEntry (Val.dict [])
        [Val.dict [("subnodes", Val.list [Val.str "A"])]]]) <
      subnodeRowCount (mkToc [mkEntry (Val.dict [])
        [Val.dict [("subnodes", Val.list [Val.str "A"])]]]) :=
  subnode_count_asymmetry.2.2
    (mkToc [mkEntry (Val.dict []) [Val.dict [("subnodes", Val.list [Val.str "A"])]]])
    ⟨Val.str "A", List.mem_singleton.mpr rfl, rfl⟩

end TocUI
